import Mathlib

/-!
Verification development for the Telegram fitness-bot dialog engine
(repository Alias1177/traine-tg-bot).

The embedding below is a shallow translation of the Go sources, primarily
the English copies of `user.go` (src/unnamed/part_005, second half) and
`bot.go` (src/bot.go, second half), whose line numbers the claims cite.

Modelling conventions:
- Go `string` is Lean `String`; byte length (Go `len`) is `goLen`
  (sum of UTF-8 sizes), byte slicing after an ASCII prefix is `dropPfx`.
- Go `int`/`int64` are Lean `Int`; `strconv.Atoi` is `atoi`, including
  the sign handling and the 64-bit range check.
- `time.Time` values are modelled as `Int` instants; `time.Since(t) < 2s`
  becomes `now - t < 2` with the window in the same units.
- External collaborators (Stripe `CreatePayment`/`VerifyPayment`, the
  OpenAI completion call, Telegram send, `encoding/json` marshalling,
  environment flags) are oracles collected in the `Ext` record; calls to
  them are recorded as `Effect`s in the function results.
- Go's pointer-mutated session is threaded as an explicit value; every
  mutation of the session is written back to the store map, which mirrors
  the fact that the Go map holds a pointer to the mutated session.
-/

namespace TraineBot

/-- Byte length of a string, Go `len(s)` on a UTF-8 string. -/
def goLen (s : String) : Nat :=
  (s.data.map Char.utf8Size).sum

/-- Go `strings.HasPrefix`. For valid UTF-8, the byte-prefix test used by Go
agrees with the character-list prefix test used here. -/
def hasPfx (p s : String) : Bool :=
  p.data.isPrefixOf s.data

/-- Go slicing `s[len(p):]` after the ASCII prefix `p`. -/
def dropPfx (p s : String) : String :=
  String.mk (s.data.drop p.data.length)

/-- Helper for Go `strings.Contains`: does `needle` occur in `hay`. -/
def subSearch (needle : List Char) : List Char → Bool
  | [] => needle.isEmpty
  | c :: rest => needle.isPrefixOf (c :: rest) || subSearch needle rest

/-- Go `strings.Contains s sub`. -/
def strContains (s sub : String) : Bool :=
  subSearch sub.data s.data

/-- Decimal value of a digit list (caller guarantees digits only). -/
def digitsToNat (ds : List Char) : Nat :=
  ds.foldl (fun a c => a * 10 + (c.toNat - 48)) 0

/-- Smallest Go `int` (64-bit). -/
def intMin64 : Int := -(2 ^ 63)

/-- Largest Go `int` (64-bit). -/
def intMax64 : Int := 2 ^ 63 - 1

/-- Go `strconv.Atoi` on a 64-bit platform: optional single leading sign,
then one or more decimal digits, rejecting anything else and values outside
the `int64` range. Returns `none` exactly when Go returns a non-nil error. -/
def atoi (s : String) : Option Int :=
  let core : Bool → List Char → Option Int := fun neg ds =>
    if ds.isEmpty then none
    else if ds.all Char.isDigit then
      let n : Int := Int.ofNat (digitsToNat ds)
      let v : Int := if neg then -n else n
      if v < intMin64 ∨ intMax64 < v then none else some v
    else none
  match s.data with
  | [] => none
  | c :: rest =>
    if c = '-' then core true rest
    else if c = '+' then core false rest
    else core false (c :: rest)

/-- Dialog states, from `user.go` (`UserState`, `StateInitial … StateComplete`). -/
inductive UserState where
  | StateInitial
  | StateAskSex
  | StateAskAge
  | StateAskHeight
  | StateAskWeight
  | StateAskDiabetes
  | StateAskLevel
  | StateAskGoal
  | StateAskType
  | StatePayment
  | StateComplete
deriving DecidableEq, Repr

open UserState

/-- Position of a state in the declared linear order. -/
def stateIdx : UserState → Nat
  | StateInitial => 0
  | StateAskSex => 1
  | StateAskAge => 2
  | StateAskHeight => 3
  | StateAskWeight => 4
  | StateAskDiabetes => 5
  | StateAskLevel => 6
  | StateAskGoal => 7
  | StateAskType => 8
  | StatePayment => 9
  | StateComplete => 10

/-- Profile record, from `user.go` (`UserData`). `createdAt` is the
`time.Time` field modelled as an instant. -/
structure UserData where
  sex : String
  age : Int
  height : Int
  weight : Int
  diabetes : String
  level : String
  fitnessGoal : String
  fitnessType : String
  paymentID : String
  createdAt : Int
deriving DecidableEq, Repr

/-- Go zero value `UserData{}`. -/
def emptyUserData : UserData :=
  ⟨"", 0, 0, 0, "", "", "", "", "", 0⟩

/-- Per-identity session, from `user.go` (`UserSession`). -/
structure UserSession where
  userID : Int
  state : UserState
  data : UserData
  createdAt : Int
  messageCount : Int
  lastCommandTime : Int
  lastCommand : String
  lastCallback : String
  lastMessageID : Int
deriving DecidableEq, Repr

/-- `NewUserSession` from `user.go`; `now` models `time.Now()`. -/
def NewUserSession (userID : Int) (now : Int) : UserSession :=
  { userID := userID
    state := StateInitial
    data := emptyUserData
    createdAt := now
    messageCount := 0
    lastCommandTime := 0
    lastCommand := ""
    lastCallback := ""
    lastMessageID := 0 }

/-- `IncrementMessageCount` from `user.go`: bumps the counter and reports
whether it is still within `MaxMessages = 10`. -/
def incrementMessageCount (s : UserSession) : Bool × UserSession :=
  let s' := { s with messageCount := s.messageCount + 1 }
  (decide (s'.messageCount ≤ 10), s')

/-- `CheckDuplicateCommand` from `user.go`. On a non-duplicate it records the
command and refreshes the shared `LastCommandTime`. -/
def checkDuplicateCommand (s : UserSession) (command : String) (now : Int) :
    Bool × UserSession :=
  if command ≠ "" ∧ command = s.lastCommand ∧ now - s.lastCommandTime < 2 then
    (true, s)
  else
    (false, { s with lastCommand := command, lastCommandTime := now })

/-- `CheckDuplicateCallback` from `user.go`. Note that it reads and writes the
same `LastCommandTime` field as the command check. -/
def checkDuplicateCallback (s : UserSession) (callback : String) (now : Int) :
    Bool × UserSession :=
  if callback ≠ "" ∧ callback = s.lastCallback ∧ now - s.lastCommandTime < 2 then
    (true, s)
  else
    (false, { s with lastCallback := callback, lastCommandTime := now })

/-- `SetPaymentCompleted` from `user.go`. -/
def setPaymentCompleted (s : UserSession) (paymentID : String) (now : Int) :
    UserSession :=
  { s with
    data := { s.data with paymentID := paymentID, createdAt := now }
    state := StateComplete }

/-- Inline-keyboard button: callback-data button or URL button. -/
inductive Button where
  | cbBtn (label : String) (dat : String)
  | urlBtn (label : String) (url : String)
deriving DecidableEq, Repr

/-- A keyboard is a list of button rows. -/
abbrev Keyboard := List (List Button)

/-- Side-effect requests emitted towards external collaborators. -/
inductive Effect where
  | createPay (userID : Int)
  | send (text : String)
  | sendKB (text : String) (kb : Option Keyboard)
  | typing
  | askGPT (prompt : String)
deriving DecidableEq, Repr

/-- Outcomes of the external collaborators and environment flags, fixed for
one handled event: Stripe link creation, OpenAI completion, Telegram message
id of a successful send, `ENABLE_DEBUG_COMMANDS`, `USE_JSON_FORMAT`,
`encoding/json.MarshalIndent` (opaque serializer), Stripe `VerifyPayment`,
and the session id from `ManuallyCompletePayment`. -/
structure Ext where
  payLink : Option String
  gpt : Except String String
  sentID : Int
  debugCmds : Bool
  useJSON : Bool
  jsonEnc : UserData → String
  verifyPay : Except String (Bool × String)
  manualSessionID : String

/-- Mojibake bullet from the source file (bytes of a bullet re-decoded). -/
def bulletMark : String := "\u00e2\u20ac\u00a2"

/-- `FormatUserDataBeautifully` from `user.go`. -/
def formatUserDataBeautifully (u : UserData) : String :=
  "\u00f0\u0178\u2018\u00a4 *Your data*\n\n" ++
    bulletMark ++ " Gender: " ++ u.sex ++ "\n" ++
    bulletMark ++ " Age: " ++ toString u.age ++ " years\n" ++
    bulletMark ++ " Height: " ++ toString u.height ++ " cm\n" ++
    bulletMark ++ " Weight: " ++ toString u.weight ++ " kg\n" ++
    bulletMark ++ " Diabetes: " ++ u.diabetes ++ "\n" ++
    bulletMark ++ " Fitness level: " ++ u.level ++ "\n" ++
    bulletMark ++ " Goal: " ++ u.fitnessGoal ++ "\n" ++
    bulletMark ++ " Preferred workout type: " ++ u.fitnessType

/-- `UserData.String` from `user.go`: JSON for internal use when
`USE_JSON_FORMAT` is set, pretty formatting otherwise. -/
def dataString (ext : Ext) (u : UserData) : String :=
  if ext.useJSON then ext.jsonEnc u else formatUserDataBeautifully u

/-- Models Go `int(float64(w) * (num/den))`: truncation toward zero of the
scaled value. Agrees with the double-precision computation in the source for
every weight of realistic magnitude. -/
def floatScaleTrunc (w num den : Int) : Int :=
  Int.tdiv (w * num) den

/-- `GetNextQuestion` from `user.go`. The `StatePayment` text interpolates
`s.Data.String()`. -/
def getNextQuestion (ext : Ext) (s : UserSession) : String :=
  match s.state with
  | StateAskSex => "Specify your gender:"
  | StateAskAge => "Specify your age (full years):"
  | StateAskHeight => "Specify your height in centimeters (for example, 175):"
  | StateAskWeight => "Specify your weight in kilograms (for example, 70):"
  | StateAskDiabetes => "Do you have diabetes?"
  | StateAskLevel => "Rate your current fitness level:"
  | StateAskGoal => "What is your main goal?"
  | StateAskType => "What type of workouts do you prefer?"
  | StatePayment =>
    "Thank you! Your information has been collected:\n\n" ++
      dataString ext s.data ++
      "\n\nTo receive a personalized workout program, please pay for the service. Click the button or enter /pay"
  | StateComplete =>
    "Your personalized workout program has already been created. If you want to start over, use the /start command"
  | _ => "Something went wrong. Try starting over with the /start command"

/-- Nutrition answer of `GetAskQuestionAnswer` ("nutrition" case). -/
def nutritionAnswer (u : UserData) : String :=
  let weight := u.weight
  let height := u.height
  let goal := u.fitnessGoal
  let base1 :=
    "\u00f0\u0178\u00bd\u00ef\u00b8 **NUTRITION RECOMMENDATIONS**\n\n" ++
      (if goal = "weight loss" then
        "To achieve your weight loss goal, considering your weight " ++
          toString weight ++ " kg and height " ++ toString height ++
          " cm, it is recommended to consume approximately " ++
          toString (weight * 30 - 500) ++ "-" ++ toString (weight * 30 - 400) ++
          " calories per day, with a deficit of 400-500 calories.\n\n"
      else if goal = "muscle gain" then
        "For muscle mass gain, considering your weight " ++ toString weight ++
          " kg, it is recommended to consume approximately " ++
          toString (weight * 30 + 300) ++ "-" ++ toString (weight * 30 + 400) ++
          " calories per day, with a surplus of 300-400 calories.\n\n"
      else
        "To maintain your current weight of " ++ toString weight ++
          " kg, it is recommended to consume approximately " ++
          toString (weight * 28) ++ "-" ++ toString (weight * 30) ++
          " calories per day.\n\n")
  let base2 := base1 ++
    "Recommended macronutrient distribution:\n" ++
    "- Protein: 1.6-2.0 g per kg of body weight (approximately " ++
    toString (floatScaleTrunc weight 8 5) ++ "-" ++
    toString (floatScaleTrunc weight 2 1) ++ " g per day)\n" ++
    "- Fats: 0.8-1.0 g per kg of body weight (approximately " ++
    toString (floatScaleTrunc weight 4 5) ++ "-" ++
    toString (floatScaleTrunc weight 1 1) ++ " g per day)\n" ++
    "- Carbohydrates: the remaining calories\n\n"
  let base3 := base2 ++
    "**Recommended meal schedule:**\n" ++
    "1. Breakfast: protein food + complex carbohydrates (oatmeal, eggs, low-fat cottage cheese)\n" ++
    "2. Snack: fruit or protein shake\n" ++
    "3. Lunch: protein + vegetables + complex carbohydrates (meat/fish, vegetables, buckwheat/rice/quinoa)\n" ++
    "4. Snack: nuts, yogurt, or cottage cheese\n" ++
    "5. Dinner (at least 2-3 hours before sleep): protein + vegetables (chicken breast/fish, vegetable salad)\n\n"
  let base4 := base3 ++
    "**Recommendations for fluid intake:**\n" ++
    "- Drink at least " ++ toString (weight * 30) ++ " ml of water per day\n" ++
    "- Drink a glass of water 30 minutes before each meal\n" ++
    "- Limit alcohol and sweet drinks consumption\n\n"
  if u.diabetes = "yes" then
    base4 ++
      "**Special recommendations for diabetes:**\n" ++
      "- Avoid foods with high glycemic index\n" ++
      "- Control carbohydrate portions\n" ++
      "- Distribute carbohydrates evenly throughout the day\n" ++
      "- Regularly measure blood sugar levels\n" ++
      "- Consult with an endocrinologist for a detailed meal plan\n"
  else base4

/-- Exercise answer of `GetAskQuestionAnswer` ("exercises" case). -/
def exercisesAnswer (u : UserData) : String :=
  let fitnessType := u.fitnessType
  let base1 :=
    "\u00f0\u0178\u2019\u00aa **EXERCISE PROGRAM**\n\n" ++
      (if fitnessType = "strength" then
        "**Strength Workout A (Monday):**\n" ++
          "1. Warm-up: 5-10 minutes cardio and dynamic stretching\n" ++
          "2. Squats: 4 sets of 10-12 repetitions\n" ++
          "3. Bench press: 4 sets of 8-10 repetitions\n" ++
          "4. Bent-over rows: 3 sets of 10-12 repetitions\n" ++
          "5. Push-ups: 3 sets to failure\n" ++
          "6. Plank: 3 sets of 30-60 seconds\n" ++
          "7. Stretching: 5-10 minutes\n\n" ++
          "**Strength Workout B (Thursday):**\n" ++
          "1. Warm-up: 5-10 minutes cardio and dynamic stretching\n" ++
          "2. Deadlift: 4 sets of 8-10 repetitions\n" ++
          "3. Overhead dumbbell press: 3 sets of 10-12 repetitions\n" ++
          "4. Pull-ups (or lat pulldown): 3 sets to failure\n" ++
          "5. Bicep curls: 3 sets of 12-15 repetitions\n" ++
          "6. Tricep extensions: 3 sets of 12-15 repetitions\n" ++
          "7. Stretching: 5-10 minutes\n\n"
      else if fitnessType = "cardio" then
        "**Cardio Workout (Tuesday, Friday):**\n" ++
          "1. Warm-up: 5 minutes of light walking or slow jogging\n" ++
          "2. Interval training: 30 seconds sprint + 90 seconds walking (repeat 10 times)\n" ++
          "3. Cool-down: 5 minutes slow walking\n\n" ++
          "**HIIT Workout (Saturday):**\n" ++
          "1. Warm-up: 5 minutes\n" ++
          "2. Circuit training (no rest between exercises, 60 sec rest between rounds):\n" ++
          "   - Burpees: 30 seconds\n" ++
          "   - Jump squats: 30 seconds\n" ++
          "   - Mountain climbers: 30 seconds\n" ++
          "   - Crunches: 30 seconds\n" ++
          "   - Jump rope: 60 seconds\n" ++
          "3. Repeat circuit 3-5 times\n" ++
          "4. Cool-down and stretching: 5-10 minutes\n\n"
      else
        "**Full Body Workout (3 times a week - Mon, Wed, Fri):**\n" ++
          "1. Warm-up: 5-10 minutes cardio and dynamic stretching\n" ++
          "2. Squats: 3 sets of 12-15 repetitions\n" ++
          "3. Push-ups: 3 sets of 10-12 repetitions\n" ++
          "4. Back extensions: 3 sets of 12-15 repetitions\n" ++
          "5. Plank: 3 sets of 30-60 seconds\n" ++
          "6. Cardio: 15-20 minutes (running, cycling, elliptical)\n" ++
          "7. Stretching: 5-10 minutes\n\n")
  let base2 := base1 ++
    "**General recommendations:**\n" ++
    "- Always start with a warm-up to avoid injuries\n" ++
    "- Control proper exercise technique\n" ++
    "- Gradually increase intensity every 2-3 weeks\n" ++
    "- If you feel pain (not to be confused with muscle fatigue), stop the exercise\n" ++
    "- Take 1-2 rest days per week for recovery\n\n"
  if u.level = "beginner" then
    base2 ++
      "**Recommendations for beginners:**\n" ++
      "- Start with lower weight and fewer repetitions\n" ++
      "- Focus on learning proper technique\n" ++
      "- Increase intensity gradually\n"
  else base2

/-- Progress answer of `GetAskQuestionAnswer` ("progress" case). -/
def progressAnswer : String :=
  "\u00f0\u0178\u201c\u0160 **HOW TO TRACK PROGRESS**\n\n" ++
    "**Main metrics to track:**\n" ++
    "1. **Weight** - weigh yourself 1-2 times a week, at the same time (preferably in the morning on an empty stomach)\n" ++
    "2. **Body measurements** - measure main body parts every 2-4 weeks:\n" ++
    "   - Neck circumference\n" ++
    "   - Chest circumference\n" ++
    "   - Waist circumference\n" ++
    "   - Hip circumference\n" ++
    "   - Bicep circumference\n" ++
    "   - Thigh circumference\n" ++
    "   - Calf circumference\n" ++
    "3. **Photos** - take photos in the same conditions (lighting, pose, clothing) every 4 weeks\n" ++
    "4. **Workout journal** - record weights and repetitions for each exercise\n" ++
    "5. **Food journal** - track calories and macronutrients consumed\n\n" ++
    "**Additional parameters:**\n" ++
    "- **Energy and well-being** - rate on a scale from 1 to 10\n" ++
    "- **Sleep quality** - duration and feeling of rest after sleep\n" ++
    "- **Workout performance** - how easy/difficult it is to perform exercises\n\n" ++
    "**Technologies for tracking:**\n" ++
    "- Calorie counting apps (MyFitnessPal, FatSecret)\n" ++
    "- Workout apps (Strong, Jefit, Nike Training Club)\n" ++
    "- Fitness trackers and smart watches for activity tracking\n\n" ++
    "**How to evaluate results:**\n" ++
    "- For weight loss: expect 0.5-1 kg loss per week (safe rate)\n" ++
    "- For mass gain: 0.2-0.5 kg per week can be considered a good result\n" ++
    "- Pay attention to changes in body size and well-being\n" ++
    "- If progress stops for 2-3 weeks, review your program and nutrition\n\n" ++
    "**Important to remember:**\n" ++
    "- Progress is rarely linear\n" ++
    "- Weight is affected by many factors (water, salt, hormones, stress)\n" ++
    "- Evaluate progress comprehensively, not just by weight\n" ++
    "- Be patient - sustainable results take time"

/-- Diabetes answer of `GetAskQuestionAnswer` ("diabetes" case). -/
def diabetesAnswer (u : UserData) : String :=
  "\u00f0\u0178\u00a9\u00ba **WORKOUTS WITH DIABETES**\n\n" ++
    (if u.diabetes = "yes" then
      "**Main recommendations for workouts with diabetes:**\n\n" ++
        "**Before workout:**\n" ++
        "- Measure blood glucose level before workout\n" ++
        "- If level is below 5.6 mmol/L, eat a small portion of carbohydrates\n" ++
        "- If level is above 13.9 mmol/L, postpone intensive workout\n" ++
        "- Have fast carbs with you (glucose, juice) in case of hypoglycemia\n" ++
        "- Wear a diabetic identification bracelet\n\n" ++
        "**During workout:**\n" ++
        "- Pay attention to hypoglycemia symptoms (trembling, weakness, dizziness, sweating)\n" ++
        "- For long workouts (more than 45-60 minutes) periodically check sugar level\n" ++
        "- Drink enough water\n\n" ++
        "**After workout:**\n" ++
        "- Measure glucose level after workout\n" ++
        "- Be attentive to delayed hypoglycemia (may occur 4-48 hours later)\n" ++
        "- Make sure you have a post-workout meal plan\n\n" ++
        "**Workout type selection:**\n" ++
        "- Combine cardio and strength workouts for better sugar control\n" ++
        "- Start with low intensity and gradually increase load\n" ++
        "- Strength training improves insulin sensitivity\n" ++
        "- Moderate intensity aerobic workouts (walking, swimming, cycling) are good for sugar control\n\n" ++
        "**Insulin and medication dose adjustment:**\n" ++
        "- Consult with your endocrinologist regarding insulin or medication dose adjustments before workout\n" ++
        "- Usually requires reducing insulin dose before physical activity\n\n" ++
        "**Important:**\n" ++
        "- Always consult with your doctor before starting a new workout program\n" ++
        "- Keep a journal, noting sugar levels before, during, and after workouts\n" ++
        "- Be especially careful when working out in heat or cold\n" ++
        "- Watch your feet condition and use appropriate footwear\n"
    else
      "You have not indicated diabetes, but here are general recommendations that are useful for everyone to know:\n\n" ++
        "1. Regular physical activity helps maintain normal blood sugar levels\n" ++
        "2. Balanced nutrition with control of simple carbohydrate intake supports healthy metabolism\n" ++
        "3. Pay attention to your feelings during workouts - weakness, dizziness, increased thirst may indicate sugar problems\n" ++
        "4. Regular medical examination will help identify potential problems at an early stage\n\n" ++
        "Type 2 diabetes prevention:\n" ++
        "- Maintain a healthy weight\n" ++
        "- Exercise regularly\n" ++
        "- Eat healthy food rich in fiber and low on glycemic index\n" ++
        "- Limit sugar and refined carbohydrate intake\n" ++
        "- Avoid smoking and excessive alcohol consumption\n")

/-- `GetAskQuestionAnswer` from `user.go`. -/
def getAskQuestionAnswer (s : UserSession) (question : String) : String :=
  if question = "nutrition" then nutritionAnswer s.data
  else if question = "exercises" then exercisesAnswer s.data
  else if question = "progress" then progressAnswer
  else if question = "diabetes" then diabetesAnswer s.data
  else "Please clarify your question about the workout program."

/-- Result of one state-machine step: mutated session, response text, emitted
side-effect requests, and whether a Go `error` was returned. -/
structure InRes where
  sess : UserSession
  resp : String
  effs : List Effect
  isErr : Bool
deriving DecidableEq, Repr

/-- The collected-data reminder sent at `StatePayment` for any input other
than `/pay` (`ProcessInput`, `StatePayment` default branch; it uses
`FormatUserDataBeautifully` directly). -/
def payReminder (d : UserData) : String :=
  "Thank you! Your information has been collected:\n\n" ++
    formatUserDataBeautifully d ++
    "\n\nTo receive a personalized workout program, please pay for the service. Click the button or enter /pay"

/-- `ProcessInput` from `user.go`: the dialog state machine. The
`CreatePayment` call in the `StatePayment` branch is recorded as a
`createPay` effect whose outcome is the `payLink` oracle. -/
def processInput (ext : Ext) (s : UserSession) (input : String) : InRes :=
  match s.state with
  | StateInitial =>
    ⟨{ s with state := StateAskSex },
      "Let\x27s create a personalized fitness program for you! First, I\x27ll ask you a few questions.\n\nSpecify your gender:",
      [], false⟩
  | StateAskSex =>
    ⟨{ s with data := { s.data with sex := input }, state := StateAskAge },
      "Specify your age (full years):", [], false⟩
  | StateAskAge =>
    match atoi input with
    | none => ⟨s, "Please enter age in digits (for example, 25):", [], false⟩
    | some age =>
      ⟨{ s with data := { s.data with age := age }, state := StateAskHeight },
        "Specify your height in centimeters (for example, 175):", [], false⟩
  | StateAskHeight =>
    match atoi input with
    | none => ⟨s, "Please enter height in digits in centimeters (for example, 175):", [], false⟩
    | some height =>
      ⟨{ s with data := { s.data with height := height }, state := StateAskWeight },
        "Specify your weight in kilograms (for example, 70):", [], false⟩
  | StateAskWeight =>
    match atoi input with
    | none => ⟨s, "Please enter weight in digits in kilograms (for example, 70):", [], false⟩
    | some weight =>
      ⟨{ s with data := { s.data with weight := weight }, state := StateAskDiabetes },
        "Do you have diabetes?", [], false⟩
  | StateAskDiabetes =>
    ⟨{ s with data := { s.data with diabetes := input }, state := StateAskLevel },
      "Rate your current fitness level:", [], false⟩
  | StateAskLevel =>
    ⟨{ s with data := { s.data with level := input }, state := StateAskGoal },
      "What is your main goal?", [], false⟩
  | StateAskGoal =>
    ⟨{ s with data := { s.data with fitnessGoal := input }, state := StateAskType },
      "What type of workouts do you prefer?", [], false⟩
  | StateAskType =>
    let d := { s.data with fitnessType := input }
    ⟨{ s with data := d, state := StatePayment },
      "Thank you! Your information has been collected:\n\n" ++ dataString ext d ++
        "\n\nTo receive a personalized workout program, please pay for the service. Enter /pay",
      [], false⟩
  | StatePayment =>
    if input = "/pay" then
      match ext.payLink with
      | some link =>
        ⟨s, "To make a payment, follow this link: " ++ link,
          [Effect.createPay s.userID], false⟩
      | none =>
        ⟨s, "An error occurred while creating payment. Please try again later.",
          [Effect.createPay s.userID], true⟩
    else
      ⟨s, payReminder s.data, [], false⟩
  | StateComplete =>
    ⟨s, "Your personalized workout program has already been created. If you want to start over, use the /start command",
      [], false⟩

/-- Lookup table of the `sex:` tokens (Go map literal; `none` models a key
missing from the map, whose Go lookup yields the zero value `""`). -/
def sexTable (v : String) : Option String :=
  if v = "male" then some "male"
  else if v = "female" then some "female"
  else none

/-- Lookup table of the `dia:` tokens. -/
def diaTable (v : String) : Option String :=
  if v = "yes" then some "yes"
  else if v = "no" then some "no"
  else none

/-- Lookup table of the `lvl:` tokens. -/
def lvlTable (v : String) : Option String :=
  if v = "beginner" then some "beginner"
  else if v = "intermediate" then some "intermediate"
  else if v = "advanced" then some "advanced"
  else none

/-- Lookup table of the `gol:` tokens. -/
def golTable (v : String) : Option String :=
  if v = "weight_loss" then some "weight loss"
  else if v = "muscle_gain" then some "muscle gain"
  else if v = "maintenance" then some "maintenance"
  else if v = "endurance" then some "endurance improvement"
  else none

/-- Lookup table of the `typ:` tokens. -/
def typTable (v : String) : Option String :=
  if v = "strength" then some "strength"
  else if v = "cardio" then some "cardio"
  else if v = "mixed" then some "mixed"
  else if v = "yoga" then some "yoga"
  else if v = "pilates" then some "pilates"
  else if v = "other" then some "other"
  else none

/-- `ProcessButtonCallback` from `user.go`: the choice-token translator.
Mirrors the source's check order exactly: byte-length guard, the `"pay"`
token, the `ask_` family, then the prefix chain ending with `ask:`, a dead
second `"pay"` check, and the unknown-token error. A value missing from a
field table stores Go's zero value `""`. -/
def processButtonCallback (ext : Ext) (s : UserSession) (dat : String) : InRes :=
  if goLen dat < 4 then ⟨s, "Invalid data", [], true⟩
  else if dat = "pay" then
    match ext.payLink with
    | some link =>
      ⟨s, "To make a payment, follow this link: " ++ link,
        [Effect.createPay s.userID], false⟩
    | none =>
      ⟨s, "An error occurred while creating payment. Please try again later.",
        [Effect.createPay s.userID], true⟩
  else if hasPfx ("ask_") dat then
    ⟨s, getAskQuestionAnswer s (dropPfx ("ask_") dat), [], false⟩
  else if hasPfx ("sex:") dat then
    let v := dropPfx ("sex:") dat
    let s' := { s with data := { s.data with sex := (sexTable v).getD "" }
                       state := StateAskAge }
    ⟨s', getNextQuestion ext s', [], false⟩
  else if hasPfx ("dia:") dat then
    let v := dropPfx ("dia:") dat
    let s' := { s with data := { s.data with diabetes := (diaTable v).getD "" }
                       state := StateAskLevel }
    ⟨s', getNextQuestion ext s', [], false⟩
  else if hasPfx ("lvl:") dat then
    let v := dropPfx ("lvl:") dat
    let s' := { s with data := { s.data with level := (lvlTable v).getD "" }
                       state := StateAskGoal }
    ⟨s', getNextQuestion ext s', [], false⟩
  else if hasPfx ("gol:") dat then
    let v := dropPfx ("gol:") dat
    let s' := { s with data := { s.data with fitnessGoal := (golTable v).getD "" }
                       state := StateAskType }
    ⟨s', getNextQuestion ext s', [], false⟩
  else if hasPfx ("typ:") dat then
    let v := dropPfx ("typ:") dat
    let s' := { s with data := { s.data with fitnessType := (typTable v).getD "" }
                       state := StatePayment }
    ⟨s', getNextQuestion ext s', [], false⟩
  else if hasPfx ("ask:") dat then
    ⟨s, getAskQuestionAnswer s (dropPfx ("ask:") dat), [], false⟩
  else if dat = "pay" then
    ⟨s, "/pay", [], false⟩
  else
    ⟨s, "Unknown command", [], true⟩

/-- Statement helper: the fixed state that `ProcessButtonCallback` assigns
for a field token, determined by the token's prefix through the same check
chain as the code; `none` for tokens that do not reach a field branch. -/
def tokenTarget (dat : String) : Option UserState :=
  if goLen dat < 4 then none
  else if dat = "pay" then none
  else if hasPfx ("ask_") dat then none
  else if hasPfx ("sex:") dat then some StateAskAge
  else if hasPfx ("dia:") dat then some StateAskLevel
  else if hasPfx ("lvl:") dat then some StateAskGoal
  else if hasPfx ("gol:") dat then some StateAskType
  else if hasPfx ("typ:") dat then some StatePayment
  else none

/-- `GetKeyboardForState` from `bot.go`/`user.go` (English copy): keyboards
per state; the `StatePayment` case itself calls `CreatePayment` to build a
URL button, falling back to a callback button when the call fails. -/
def getKeyboardForState (ext : Ext) (s : UserSession) :
    Option Keyboard × List Effect :=
  match s.state with
  | StateAskSex =>
    (some [[Button.cbBtn ("Male") ("sex:male"),
            Button.cbBtn ("Female") ("sex:female")]], [])
  | StateAskDiabetes =>
    (some [[Button.cbBtn ("Yes") ("dia:yes"),
            Button.cbBtn ("No") ("dia:no")]], [])
  | StateAskLevel =>
    (some [[Button.cbBtn ("Beginner") ("lvl:beginner")],
           [Button.cbBtn ("Intermediate") ("lvl:intermediate")],
           [Button.cbBtn ("Advanced") ("lvl:advanced")]], [])
  | StateAskGoal =>
    (some [[Button.cbBtn ("Weight Loss") ("gol:weight_loss")],
           [Button.cbBtn ("Muscle Gain") ("gol:muscle_gain")],
           [Button.cbBtn ("Maintenance") ("gol:maintenance")],
           [Button.cbBtn ("Endurance Improvement") ("gol:endurance")]], [])
  | StateAskType =>
    (some [[Button.cbBtn ("Strength") ("typ:strength"),
            Button.cbBtn ("Cardio") ("typ:cardio")],
           [Button.cbBtn ("Mixed") ("typ:mixed"),
            Button.cbBtn ("Yoga") ("typ:yoga")],
           [Button.cbBtn ("Pilates") ("typ:pilates"),
            Button.cbBtn ("Other") ("typ:other")]], [])
  | StatePayment =>
    match ext.payLink with
    | none =>
      (some [[Button.cbBtn ("\u00f0\u0178\u2019\u00b3 Pay") ("pay")]],
        [Effect.createPay s.userID])
    | some url =>
      (some [[Button.urlBtn ("\u00f0\u0178\u2019\u00b3 Go to Payment") url]],
        [Effect.createPay s.userID])
  | StateComplete =>
    (some [[Button.cbBtn ("Clarify Nutrition") ("ask:nutrition"),
            Button.cbBtn ("Clarify Exercises") ("ask:exercises")],
           [Button.cbBtn ("How to Track Progress") ("ask:progress"),
            Button.cbBtn ("What to do with Diabetes") ("ask:diabetes")]], [])
  | _ => (none, [])

/-- Association-map lookup, modelling Go map read. -/
def lookupA {α : Type} (m : List (Int × α)) (k : Int) : Option α :=
  (m.find? (fun p => p.1 == k)).map (fun p => p.2)

/-- Association-map write, modelling Go map assignment (overwrite or add). -/
def insertA {α : Type} (m : List (Int × α)) (k : Int) (v : α) : List (Int × α) :=
  match m with
  | [] => [(k, v)]
  | (k', v') :: rest =>
    if k' == k then (k, v) :: rest else (k', v') :: insertA rest k v

/-- The bot's shared state: the session map and the `/start` throttle map
(`Bot.sessions`, `Bot.lastStartTime` in `bot.go`). -/
structure BotState where
  sessions : List (Int × UserSession)
  lastStartTime : List (Int × Int)
deriving Repr

/-- `getSession` from `bot.go` as executed by a single call without
interference (the interleaved two-call semantics is modelled separately
below for the creation race). -/
def getSessionSeq (b : BotState) (userID : Int) (now : Int) :
    UserSession × BotState :=
  match lookupA b.sessions userID with
  | some s => (s, b)
  | none =>
    let s := NewUserSession userID now
    (s, { b with sessions := insertA b.sessions userID s })

/-- `checkStartCommand` from `bot.go`: at most one `/start` per 5 time
units per user. -/
def checkStartCommand (b : BotState) (userID : Int) (now : Int) :
    Bool × BotState :=
  match lookupA b.lastStartTime userID with
  | none =>
    (true, { b with lastStartTime := insertA b.lastStartTime userID now })
  | some last =>
    if now - last > 5 then
      (true, { b with lastStartTime := insertA b.lastStartTime userID now })
    else
      (false, b)

/-- The GPT prompt of `sendTrainingPlan` (`bot.go`, English copy). -/
def trainingPrompt (ext : Ext) (d : UserData) : String :=
  "Create a detailed personalized workout program for 1 week calculating body index based on the following user data. And give a minimum of 5 workouts plus an additional minimum of 3 ab workouts. Also give some motivation sentence for user.:\n" ++
    dataString ext d ++
    "\n\nThe program should include:\n1. Weekly workout plan with days, workout types, and duration\n2. Detailed description of each workout with exercises, sets, and repetitions\n3. Nutrition recommendations\n4. Progress tracking recommendations\n5. Additional tips considering the user\x27s personal data\n\nConsider the presence of diabetes and adapt the program accordingly."

/-- Follow-up hint keyboard sent after the plan (`sendTrainingPlan`). -/
def followupKB : Keyboard :=
  [[Button.cbBtn ("Clarify nutrition") ("ask:nutrition"),
    Button.cbBtn ("Clarify exercises") ("ask:exercises")],
   [Button.cbBtn ("How to track progress") ("ask:progress"),
    Button.cbBtn ("What to do with diabetes") ("ask:diabetes")]]

/-- Closing message of `sendTrainingPlan`. -/
def followupText : String :=
  "Here\x27s your personalized workout program! Now you can ask me questions about the program or request clarification on any part of the program."

/-- `sendTrainingPlan` from `bot.go`: typing status, completion request, then
the plan and follow-up messages; `false` when the completion call failed
(message sends themselves are modelled as succeeding). -/
def sendTrainingPlan (ext : Ext) (s : UserSession) : List Effect × Bool :=
  let prompt := trainingPrompt ext s.data
  match ext.gpt with
  | Except.error _ => ([Effect.typing, Effect.askGPT prompt], false)
  | Except.ok plan =>
    ([Effect.typing, Effect.askGPT prompt, Effect.send plan,
      Effect.sendKB followupText (some followupKB)], true)

/-- `ProcessPaymentWebhook` from `bot.go`: verify the payment, locate the
user's session, finalize it, notify, and send the plan. The third component
is the returned Go error's text (`none` when the webhook returns nil).
The `strconv.ParseInt` failure text is abbreviated. -/
def processPaymentWebhook (ext : Ext) (b : BotState) (sessionID : String)
    (now : Int) : BotState × List Effect × Option String :=
  match ext.verifyPay with
  | Except.error e => (b, [], some e)
  | Except.ok (success, userIDStr) =>
    if ¬success then (b, [], some ("payment not completed"))
    else
      match atoi userIDStr with
      | none => (b, [], some ("invalid user id"))
      | some userID =>
        let (s, b1) := getSessionSeq b userID now
        let s1 := setPaymentCompleted s sessionID now
        let b2 := { b1 with sessions := insertA b1.sessions userID s1 }
        let congrats :=
          Effect.send ("🎉 Payment successfully completed! Generating your personalized workout program...")
        let (planEffs, okPlan) := sendTrainingPlan ext s1
        let effs :=
          if okPlan then congrats :: planEffs
          else congrats :: planEffs ++
            [Effect.send ("An error occurred while generating the workout plan. Please use the /plan command to get the plan.")]
        (b2, effs, none)

/-- Message event as seen by `handleMessage`: its text, Telegram's
command-entity classification (`Message.IsCommand`) with the parsed command
name (`Message.Command`), and the arrival instant. -/
structure MsgEvent where
  text : String
  isCmd : Bool
  cmd : String
  now : Int

/-- The limit rejection text of `handleMessage`. -/
def limitText : String :=
  "You have reached the message limit. Please try again later."

/-- Final part of `handleMessage` (`bot.go` lines after the command switch):
run the state machine, route completed sessions to the completion
collaborator, otherwise send the response with the state's keyboard. -/
def handleMessageTail (ext : Ext) (b : BotState) (userID : Int)
    (s : UserSession) (ev : MsgEvent) : BotState × List Effect :=
  let r := processInput ext s ev.text
  let b1 := { b with sessions := insertA b.sessions userID r.sess }
  if r.sess.state = StateComplete ∧ ¬ev.isCmd then
    let prompt :=
      "User data:\n" ++ dataString ext r.sess.data ++
        "\n\nUser message: " ++ ev.text
    match ext.gpt with
    | Except.error e =>
      let msgTxt :=
        if strContains e ("429") then
          "Request limit to OpenAI exceeded. Please try again later."
        else
          "An error occurred while communicating with OpenAI."
      (b1, r.effs ++ [Effect.typing, Effect.askGPT prompt, Effect.send msgTxt])
    | Except.ok g =>
      (b1, r.effs ++ [Effect.typing, Effect.askGPT prompt, Effect.send g])
  else
    let (kb, kbEffs) := getKeyboardForState ext r.sess
    let sF := { r.sess with lastMessageID := ext.sentID }
    ({ b1 with sessions := insertA b1.sessions userID sF },
      r.effs ++ kbEffs ++ [Effect.sendKB r.resp kb])

/-- `handleMessage` from `bot.go` (English copy): session fetch, message
limit, per-session command dedup, the command switch (`/start`, `/help`,
`/pay`, `/complete_payment`, `/get_plan`, `/plan`), the Complete-state
dedup for plain text, and the shared tail. -/
def handleMessage (ext : Ext) (b : BotState) (userID : Int) (ev : MsgEvent) :
    BotState × List Effect :=
  let (s0, b0) := getSessionSeq b userID ev.now
  let (withinLimit, s1) := incrementMessageCount s0
  let b1 := { b0 with sessions := insertA b0.sessions userID s1 }
  if withinLimit = false then
    (b1, [Effect.send limitText])
  else if ev.isCmd then
    let (dup, s2) := checkDuplicateCommand s1 ev.text ev.now
    let b2 := { b1 with sessions := insertA b1.sessions userID s2 }
    if dup then (b2, [])
    else if ev.cmd = "start" then
      let (okStart, b3) := checkStartCommand b2 userID ev.now
      if okStart = false then (b3, [])
      else
        let sN := NewUserSession userID ev.now
        let b4 := { b3 with sessions := insertA b3.sessions userID sN }
        let r := processInput ext sN ("")
        let (kb, kbEffs) := getKeyboardForState ext r.sess
        let sF := { r.sess with lastMessageID := ext.sentID }
        ({ b4 with sessions := insertA b4.sessions userID sF },
          kbEffs ++ [Effect.sendKB r.resp kb])
    else if ev.cmd = "help" then
      (b2, [Effect.send ("I will help create a personalized workout program based on your data. Use /start to begin.")])
    else if ev.cmd = "pay" then
      if s2.state ≠ StatePayment then
        (b2, [Effect.send ("Please first fill in your information using the /start command")])
      else
        let r := processInput ext s2 ("/pay")
        ({ b2 with sessions := insertA b2.sessions userID r.sess },
          r.effs ++ [Effect.send r.resp])
    else if ev.cmd = "complete_payment" then
      if ext.debugCmds then
        if s2.state ≠ StatePayment then
          (b2, [Effect.send ("This command only works if you are at the payment stage")])
        else
          let (b3, effs, werr) :=
            processPaymentWebhook ext b2 ext.manualSessionID ev.now
          match werr with
          | some e => (b3, effs ++ [Effect.send ("Error emulating payment: " ++ e)])
          | none => (b3, effs)
      else
        (b2, [Effect.send ("Unknown command. Use /help for assistance.")])
    else if ev.cmd = "get_plan" ∨ ev.cmd = "plan" then
      if s2.state ≠ StateComplete then
        (b2, [Effect.send ("Please first fill in your information and pay for the service using the /start command")])
      else
        let (planEffs, okPlan) := sendTrainingPlan ext s2
        let effs := Effect.send ("Generating your personalized workout program...") :: planEffs
        (b2,
          if okPlan then effs
          else effs ++ [Effect.send ("An error occurred while generating the workout program. Please try again later.")])
    else
      handleMessageTail ext b2 userID s2 ev
  else
    if s1.state = StateComplete then
      let (dup, s2) := checkDuplicateCommand s1 ev.text ev.now
      let b2 := { b1 with sessions := insertA b1.sessions userID s2 }
      if dup then (b2, []) else handleMessageTail ext b2 userID s2 ev
    else
      handleMessageTail ext b1 userID s1 ev

/-- One `getSession` call decomposed into its two lock-protected atomic
sections: the `RLock` read of the map, and — only when the read found
nothing — the `Lock` write that creates and stores a fresh session. `pc = 0`
is before the read, `pc = 1` before the unconditional create-and-store,
`pc = 2` finished with return value `ret`. -/
structure GetCall where
  pc : Nat
  ret : Option UserSession
deriving DecidableEq, Repr

/-- State of two concurrent `getSession` calls for the same identity:
shared session map, the two calls, and how many sessions were created. -/
structure RaceState where
  store : List (Int × UserSession)
  t1 : GetCall
  t2 : GetCall
  creations : Nat
deriving Repr

/-- Advance one `getSession` call by one atomic section. The write section
does not re-check existence, exactly as in the source. -/
def stepGet (userID : Int) (tnow : Int) (store : List (Int × UserSession))
    (c : GetCall) (creations : Nat) :
    List (Int × UserSession) × GetCall × Nat :=
  match c.pc with
  | 0 =>
    match lookupA store userID with
    | some s => (store, ⟨2, some s⟩, creations)
    | none => (store, ⟨1, none⟩, creations)
  | 1 =>
    let s := NewUserSession userID tnow
    (insertA store userID s, ⟨2, some s⟩, creations + 1)
  | _ => (store, c, creations)

/-- Run one scheduler step: `false` advances call 1 (creation time `t1`),
`true` advances call 2 (creation time `t2`). -/
def raceStep (userID t1 t2 : Int) (st : RaceState) (who : Bool) : RaceState :=
  if who then
    let (store, c, cr) := stepGet userID t2 st.store st.t2 st.creations
    { st with store := store, t2 := c, creations := cr }
  else
    let (store, c, cr) := stepGet userID t1 st.store st.t1 st.creations
    { st with store := store, t1 := c, creations := cr }

/-- Run two concurrent first-contact `getSession` calls on an empty store
under a given interleaving schedule. -/
def runRace (userID t1 t2 : Int) (sched : List Bool) : RaceState :=
  sched.foldl (raceStep userID t1 t2) ⟨[], ⟨0, none⟩, ⟨0, none⟩, 0⟩

/-- State of the `Start` dispatch loop: the process-wide set of processed
update ids and the log of update ids for which a handler was dispatched. -/
structure LoopState where
  processed : List Nat
  handled : List Nat
deriving DecidableEq, Repr

/-- One iteration of the `Start` loop (`bot.go`): drop the update if its id
is recorded, otherwise record it, run the compaction (`cleanOldUpdates`,
which clears the whole set once it exceeds 100 entries — the cleanup
goroutine is modelled as running immediately), and dispatch the handler. -/
def stepUpdate (st : LoopState) (updateID : Nat) : LoopState :=
  if updateID ∈ st.processed then st
  else
    let p1 := updateID :: st.processed
    let p2 := if p1.length > 100 then ([] : List Nat) else p1
    { processed := p2, handled := updateID :: st.handled }

/-- Run the dispatch loop over a stream of update ids. -/
def runUpdates (ids : List Nat) : LoopState :=
  ids.foldl stepUpdate ⟨[], []⟩

/-- Fixed oracle used for concrete executions: the payment collaborator
fails, the completion collaborator fails, debug commands are off, the
pretty formatter is used. -/
def extD : Ext :=
  ⟨none, Except.error (""), 5, false, false, fun _ => "", Except.error (""), ""⟩

/-- Inputs that drive a fresh session through the whole questionnaire. -/
def onboardInputs : List String :=
  ["", "male", "30", "180", "80", "no", "beginner", "loss", "strength"]

/-- A session that reached `StatePayment` by answering every question
through `ProcessInput` from a fresh session. -/
def sessionAtPayment : UserSession :=
  onboardInputs.foldl (fun s i => (processInput extD s i).sess)
    (NewUserSession 1 0)

/-- A session that reached `StateAskSex` (one step from fresh). -/
def sessionAtAskSex : UserSession :=
  (processInput extD (NewUserSession 1 0) ("")).sess

/-- A session that reached `StateAskAge`. -/
def sessionAtAskAge : UserSession :=
  (processInput extD sessionAtAskSex ("male")).sess

/-- A session whose message counter is already at the abuse limit. -/
def sessionOverLimit : UserSession :=
  { NewUserSession 1 0 with messageCount := 10 }

/-- A bot state holding only the over-limit session. -/
def botOverLimit : BotState :=
  ⟨[(1, sessionOverLimit)], []⟩

/-- A `/start` event arriving later. -/
def startEvent : MsgEvent :=
  ⟨"/start", true, "start", 50⟩

/-- Fall-through condition of the translator: the token reaches the final
error branch (every guard of the source's check chain fails). -/
def tokenUnknown (dat : String) : Prop :=
  ¬ goLen dat < 4 ∧ dat ≠ "pay" ∧
    hasPfx ("ask_") dat = false ∧ hasPfx ("sex:") dat = false ∧
    hasPfx ("dia:") dat = false ∧ hasPfx ("lvl:") dat = false ∧
    hasPfx ("gol:") dat = false ∧ hasPfx ("typ:") dat = false ∧
    hasPfx ("ask:") dat = false

theorem isPrefixOf_self_append (l ys : List Char) :
    l.isPrefixOf (l ++ ys) = true := by
  induction l with
  | nil => simp [List.isPrefixOf]
  | cons a as ih => simp [List.isPrefixOf, ih]

theorem isPrefixOf_cons_ne (a b : Char) (as bs : List Char)
    (h : (a == b) = false) :
    List.isPrefixOf (a :: as) (b :: bs) = false := by
  simp [List.isPrefixOf, h]

theorem hasPfx_self_append (p v : String) : hasPfx p (p ++ v) = true := by
  unfold hasPfx
  rw [String.data_append]
  exact isPrefixOf_self_append p.data v.data

theorem goLen_append (p v : String) :
    goLen (p ++ v) = goLen p + goLen v := by
  unfold goLen
  rw [String.data_append, List.map_append, List.sum_append]

theorem dropPfx_append (p v : String) : dropPfx p (p ++ v) = v := by
  unfold dropPfx
  rw [String.data_append, List.drop_left]

theorem hasPfx_head_ne (p q v : String) (a b : Char) (as bs : List Char)
    (hp : p.data = a :: as) (hq : q.data = b :: bs) (h : (a == b) = false) :
    hasPfx p (q ++ v) = false := by
  unfold hasPfx
  rw [String.data_append, hp, hq, List.cons_append]
  exact isPrefixOf_cons_ne a b as (bs ++ v.data) h

theorem append4_ne_pay (p v : String) (hp : goLen p = 4) :
    (p ++ v) ≠ ("pay") := by
  intro h
  have h2 := congrArg goLen h
  rw [goLen_append, hp] at h2
  have h3 : goLen ("pay") = 3 := rfl
  omega

theorem append4_not_lt (p v : String) (hp : goLen p = 4) :
    ¬ goLen (p ++ v) < 4 := by
  rw [goLen_append, hp]
  omega

theorem pbc_sex_reduce (ext : Ext) (s : UserSession) (v : String) :
    processButtonCallback ext s ("sex:" ++ v) =
      ⟨{ s with data := { s.data with sex := (sexTable v).getD "" }
                state := StateAskAge },
        getNextQuestion ext
          { s with data := { s.data with sex := (sexTable v).getD "" }
                   state := StateAskAge },
        [], false⟩ := by
  have h1 := append4_not_lt ("sex:") v rfl
  have h2 := append4_ne_pay ("sex:") v rfl
  have h3 : hasPfx ("ask_") ("sex:" ++ v) = false :=
    hasPfx_head_ne _ _ v 'a' 's' _ _ rfl rfl (by decide)
  have h4 := hasPfx_self_append ("sex:") v
  simp [processButtonCallback, h1, h2, h3, h4, dropPfx_append]

theorem pbc_dia_reduce (ext : Ext) (s : UserSession) (v : String) :
    processButtonCallback ext s ("dia:" ++ v) =
      ⟨{ s with data := { s.data with diabetes := (diaTable v).getD "" }
                state := StateAskLevel },
        getNextQuestion ext
          { s with data := { s.data with diabetes := (diaTable v).getD "" }
                   state := StateAskLevel },
        [], false⟩ := by
  have h1 := append4_not_lt ("dia:") v rfl
  have h2 := append4_ne_pay ("dia:") v rfl
  have h3 : hasPfx ("ask_") ("dia:" ++ v) = false :=
    hasPfx_head_ne _ _ v 'a' 'd' _ _ rfl rfl (by decide)
  have h4 : hasPfx ("sex:") ("dia:" ++ v) = false :=
    hasPfx_head_ne _ _ v 's' 'd' _ _ rfl rfl (by decide)
  have h5 := hasPfx_self_append ("dia:") v
  simp [processButtonCallback, h1, h2, h3, h4, h5, dropPfx_append]

theorem pbc_lvl_reduce (ext : Ext) (s : UserSession) (v : String) :
    processButtonCallback ext s ("lvl:" ++ v) =
      ⟨{ s with data := { s.data with level := (lvlTable v).getD "" }
                state := StateAskGoal },
        getNextQuestion ext
          { s with data := { s.data with level := (lvlTable v).getD "" }
                   state := StateAskGoal },
        [], false⟩ := by
  have h1 := append4_not_lt ("lvl:") v rfl
  have h2 := append4_ne_pay ("lvl:") v rfl
  have h3 : hasPfx ("ask_") ("lvl:" ++ v) = false :=
    hasPfx_head_ne _ _ v 'a' 'l' _ _ rfl rfl (by decide)
  have h4 : hasPfx ("sex:") ("lvl:" ++ v) = false :=
    hasPfx_head_ne _ _ v 's' 'l' _ _ rfl rfl (by decide)
  have h5 : hasPfx ("dia:") ("lvl:" ++ v) = false :=
    hasPfx_head_ne _ _ v 'd' 'l' _ _ rfl rfl (by decide)
  have h6 := hasPfx_self_append ("lvl:") v
  simp [processButtonCallback, h1, h2, h3, h4, h5, h6, dropPfx_append]

theorem pbc_gol_reduce (ext : Ext) (s : UserSession) (v : String) :
    processButtonCallback ext s ("gol:" ++ v) =
      ⟨{ s with data := { s.data with fitnessGoal := (golTable v).getD "" }
                state := StateAskType },
        getNextQuestion ext
          { s with data := { s.data with fitnessGoal := (golTable v).getD "" }
                   state := StateAskType },
        [], false⟩ := by
  have h1 := append4_not_lt ("gol:") v rfl
  have h2 := append4_ne_pay ("gol:") v rfl
  have h3 : hasPfx ("ask_") ("gol:" ++ v) = false :=
    hasPfx_head_ne _ _ v 'a' 'g' _ _ rfl rfl (by decide)
  have h4 : hasPfx ("sex:") ("gol:" ++ v) = false :=
    hasPfx_head_ne _ _ v 's' 'g' _ _ rfl rfl (by decide)
  have h5 : hasPfx ("dia:") ("gol:" ++ v) = false :=
    hasPfx_head_ne _ _ v 'd' 'g' _ _ rfl rfl (by decide)
  have h6 : hasPfx ("lvl:") ("gol:" ++ v) = false :=
    hasPfx_head_ne _ _ v 'l' 'g' _ _ rfl rfl (by decide)
  have h7 := hasPfx_self_append ("gol:") v
  simp [processButtonCallback, h1, h2, h3, h4, h5, h6, h7, dropPfx_append]

theorem pbc_typ_reduce (ext : Ext) (s : UserSession) (v : String) :
    processButtonCallback ext s ("typ:" ++ v) =
      ⟨{ s with data := { s.data with fitnessType := (typTable v).getD "" }
                state := StatePayment },
        getNextQuestion ext
          { s with data := { s.data with fitnessType := (typTable v).getD "" }
                   state := StatePayment },
        [], false⟩ := by
  have h1 := append4_not_lt ("typ:") v rfl
  have h2 := append4_ne_pay ("typ:") v rfl
  have h3 : hasPfx ("ask_") ("typ:" ++ v) = false :=
    hasPfx_head_ne _ _ v 'a' 't' _ _ rfl rfl (by decide)
  have h4 : hasPfx ("sex:") ("typ:" ++ v) = false :=
    hasPfx_head_ne _ _ v 's' 't' _ _ rfl rfl (by decide)
  have h5 : hasPfx ("dia:") ("typ:" ++ v) = false :=
    hasPfx_head_ne _ _ v 'd' 't' _ _ rfl rfl (by decide)
  have h6 : hasPfx ("lvl:") ("typ:" ++ v) = false :=
    hasPfx_head_ne _ _ v 'l' 't' _ _ rfl rfl (by decide)
  have h7 : hasPfx ("gol:") ("typ:" ++ v) = false :=
    hasPfx_head_ne _ _ v 'g' 't' _ _ rfl rfl (by decide)
  have h8 := hasPfx_self_append ("typ:") v
  simp [processButtonCallback, h1, h2, h3, h4, h5, h6, h7, h8, dropPfx_append]

theorem pbcTargetState (ext : Ext) (s : UserSession) (dat : String)
    (t : UserState) (h : tokenTarget dat = some t) :
    (processButtonCallback ext s dat).sess.state = t := by
  unfold tokenTarget at h
  unfold processButtonCallback
  split_ifs at h ⊢ <;> cases h <;> rfl


/-- Claim C3: `SetPaymentCompleted` called with any payment reference on a
session in any state sets the profile's payment reference to that reference,
sets created-at, and forces the state to `StateComplete` unconditionally;
calling it again on an already-Complete session leaves the session Complete
(idempotent no-op overwrite); in particular, finalizing a session at
`StatePayment` with reference "pay_123" yields Complete with that
reference. -/
theorem C3_finalize_unconditional :
    (∀ (s : UserSession) (paymentID : String) (now : Int)
        (pid2 : String) (now2 : Int),
      (setPaymentCompleted s paymentID now).state = StateComplete ∧
      (setPaymentCompleted s paymentID now).data.paymentID = paymentID ∧
      (setPaymentCompleted s paymentID now).data.createdAt = now ∧
      (setPaymentCompleted (setPaymentCompleted s paymentID now) pid2 now2).state
          = StateComplete ∧
      (setPaymentCompleted (setPaymentCompleted s paymentID now) pid2 now2).data.paymentID
          = pid2) ∧
    (sessionAtPayment.state = StatePayment ∧
      (setPaymentCompleted sessionAtPayment ("pay_123") 42).state = StateComplete ∧
      (setPaymentCompleted sessionAtPayment ("pay_123") 42).data.paymentID = "pay_123") := by
  refine ⟨fun s paymentID now pid2 now2 => ⟨rfl, rfl, rfl, rfl, rfl⟩, ?_⟩
  refine ⟨by decide, rfl, rfl⟩

/-- Claim C5: at `StateAskAge`, `StateAskHeight` and `StateAskWeight`, an
input that does not parse as an integer leaves the session (state and all
profile fields) unchanged, returns the fixed retry prompt re-asking the same
value with a format hint, and surfaces no error to the caller. -/
theorem C5_numeric_retry :
    (∀ (ext : Ext) (s : UserSession) (input : String),
      s.state = StateAskAge → atoi input = none →
      processInput ext s input =
        ⟨s, "Please enter age in digits (for example, 25):", [], false⟩) ∧
    (∀ (ext : Ext) (s : UserSession) (input : String),
      s.state = StateAskHeight → atoi input = none →
      processInput ext s input =
        ⟨s, "Please enter height in digits in centimeters (for example, 175):", [], false⟩) ∧
    (∀ (ext : Ext) (s : UserSession) (input : String),
      s.state = StateAskWeight → atoi input = none →
      processInput ext s input =
        ⟨s, "Please enter weight in digits in kilograms (for example, 70):", [], false⟩) := by
  refine ⟨?_, ?_, ?_⟩ <;>
    (intro ext s input hst hat
     rcases s with ⟨uid, st, d, ca, mc, lct, lc, lcb, lm⟩
     simp only at hst
     subst hst
     simp [processInput, hat])

/-- Witness for C5 at a concrete session and input. -/
theorem C5_numeric_retry_witness :
    sessionAtAskAge.state = StateAskAge ∧ atoi ("abc") = none ∧
    processInput extD sessionAtAskAge ("abc") =
      ⟨sessionAtAskAge, "Please enter age in digits (for example, 25):", [], false⟩ :=
  ⟨by decide, by decide,
    C5_numeric_retry.1 extD sessionAtAskAge ("abc") (by decide) (by decide)⟩

/-- Claim C7 counterexample: at `StateAskAge` the input "-5" is accepted
(the state advances to `StateAskHeight`), yet the stored age is -5, which is
not a positive integer — refuting the claim that the age, height and weight
fields only ever hold positive integers. The session used is reachable: it
was built by running `ProcessInput` from a fresh session. -/
theorem C7_counterexample :
    sessionAtAskAge.state = StateAskAge ∧
    (processInput extD sessionAtAskAge ("-5")).sess.state = StateAskHeight ∧
    (processInput extD sessionAtAskAge ("-5")).sess.data.age = -5 ∧
    ¬ (0 < (processInput extD sessionAtAskAge ("-5")).sess.data.age) := by
  decide

/-- Claim C7 as amended: an input accepted at `StateAskAge`,
`StateAskHeight` or `StateAskWeight` stores exactly the integer that
`strconv.Atoi` parsed in the corresponding field and advances the state by
one; the parser enforces integer syntax and 64-bit range only, not
positivity, so zero and negative values are stored as well. -/
theorem C7_numeric_store :
    (∀ (ext : Ext) (s : UserSession) (input : String) (n : Int),
      s.state = StateAskAge → atoi input = some n →
      (processInput ext s input).sess.data.age = n ∧
      (processInput ext s input).sess.state = StateAskHeight) ∧
    (∀ (ext : Ext) (s : UserSession) (input : String) (n : Int),
      s.state = StateAskHeight → atoi input = some n →
      (processInput ext s input).sess.data.height = n ∧
      (processInput ext s input).sess.state = StateAskWeight) ∧
    (∀ (ext : Ext) (s : UserSession) (input : String) (n : Int),
      s.state = StateAskWeight → atoi input = some n →
      (processInput ext s input).sess.data.weight = n ∧
      (processInput ext s input).sess.state = StateAskDiabetes) := by
  refine ⟨?_, ?_, ?_⟩ <;>
    (intro ext s input n hst hat
     rcases s with ⟨uid, st, d, ca, mc, lct, lc, lcb, lm⟩
     simp only at hst
     subst hst
     simp [processInput, hat])

/-- Witness for C7 as amended, at a concrete accepted input. -/
theorem C7_numeric_store_witness :
    sessionAtAskAge.state = StateAskAge ∧ atoi ("25") = some 25 ∧
    (processInput extD sessionAtAskAge ("25")).sess.data.age = 25 ∧
    (processInput extD sessionAtAskAge ("25")).sess.state = StateAskHeight :=
  ⟨by decide, by decide,
    (C7_numeric_store.1 extD sessionAtAskAge ("25") 25 (by decide) (by decide)).1,
    (C7_numeric_store.1 extD sessionAtAskAge ("25") 25 (by decide) (by decide)).2⟩

theorem cdc_false_snd (s : UserSession) (c : String) (now : Int)
    (h : (checkDuplicateCommand s c now).1 = false) :
    (checkDuplicateCommand s c now).2 =
      { s with lastCommand := c, lastCommandTime := now } := by
  unfold checkDuplicateCommand at h ⊢
  split_ifs at h ⊢ with hcond
  rfl

theorem cdcb_false_snd (s : UserSession) (cb : String) (now : Int)
    (h : (checkDuplicateCallback s cb now).1 = false) :
    (checkDuplicateCallback s cb now).2 =
      { s with lastCallback := cb, lastCommandTime := now } := by
  unfold checkDuplicateCallback at h ⊢
  split_ifs at h ⊢ with hcond
  rfl

/-- Claim C9: the command-duplicate and callback-duplicate checks share the
single `LastCommandTime` field — every non-duplicate call to either check
overwrites that timestamp — so a command repeated at least the 2-unit window
after its first occurrence is still classified as a duplicate when an
intervening callback refreshed the shared timestamp within the window. -/
theorem C9_shared_timestamp :
    (∀ (s : UserSession) (c : String) (now : Int),
      (checkDuplicateCommand s c now).1 = false →
      (checkDuplicateCommand s c now).2.lastCommandTime = now) ∧
    (∀ (s : UserSession) (cb : String) (now : Int),
      (checkDuplicateCallback s cb now).1 = false →
      (checkDuplicateCallback s cb now).2.lastCommandTime = now) ∧
    (∀ (s : UserSession) (c x : String) (t0 t1 t2 : Int),
      c ≠ "" →
      (checkDuplicateCommand s c t0).1 = false →
      (checkDuplicateCallback (checkDuplicateCommand s c t0).2 x t1).1 = false →
      2 ≤ t2 - t0 → t2 - t1 < 2 →
      (checkDuplicateCommand
        ((checkDuplicateCallback (checkDuplicateCommand s c t0).2 x t1).2) c t2).1
        = true) := by
  refine ⟨?_, ?_, ?_⟩
  · intro s c now h
    rw [cdc_false_snd s c now h]
  · intro s cb now h
    rw [cdcb_false_snd s cb now h]
  · intro s c x t0 t1 t2 hc h0 h1 hfar hnear
    have h0' := cdc_false_snd s c t0 h0
    have h1' := cdcb_false_snd _ x t1 h1
    rw [h0'] at h1'
    rw [h0', h1']
    unfold checkDuplicateCommand
    rw [if_pos]
    exact ⟨hc, rfl, hnear⟩

/-- Witness for C9: a real masking scenario — command at time 0, callback at
time 3, the same command at time 4 (two units after its first occurrence) is
still classified as a duplicate. -/
theorem C9_shared_timestamp_witness :
    (("/help" : String) ≠ "") ∧
    (checkDuplicateCommand (NewUserSession 1 0) ("/help") 0).1 = false ∧
    (checkDuplicateCallback
      (checkDuplicateCommand (NewUserSession 1 0) ("/help") 0).2 ("cb") 3).1 = false ∧
    2 ≤ (4 : Int) - 0 ∧ (4 : Int) - 3 < 2 ∧
    (checkDuplicateCommand
      ((checkDuplicateCallback
        (checkDuplicateCommand (NewUserSession 1 0) ("/help") 0).2 ("cb") 3).2)
      ("/help") 4).1 = true :=
  ⟨by decide, by decide, by decide, by decide, by decide,
    C9_shared_timestamp.2.2 (NewUserSession 1 0) ("/help") ("cb") 0 3 4
      (by decide) (by decide) (by decide) (by decide) (by decide)⟩

/-- Claim C1 counterexample: a session that reached `StatePayment` by
answering every question through `ProcessInput` receives the stale token
"sex:male"; `ProcessButtonCallback` then sets the state to `StateAskAge`,
which is neither unchanged nor strictly forward of `StatePayment` — refuting
the claim that every dialog-advancing operation leaves the state unchanged
or moves it strictly forward. -/
theorem C1_counterexample :
    sessionAtPayment.state = StatePayment ∧
    (processButtonCallback extD sessionAtPayment ("sex:male")).sess.state
      = StateAskAge ∧
    ¬ ((processButtonCallback extD sessionAtPayment ("sex:male")).sess.state
          = sessionAtPayment.state ∨
        stateIdx sessionAtPayment.state <
          stateIdx (processButtonCallback extD sessionAtPayment ("sex:male")).sess.state) := by
  decide

/-- Claim C1 as amended: `ProcessInput` either leaves the state unchanged or
moves it strictly forward in the declared order; `ProcessButtonCallback`
sets the state to the fixed successor determined by the token's field prefix
(`sex:` to AskAge, `dia:` to AskLevel, `lvl:` to AskGoal, `gol:` to AskType,
`typ:` to Payment) regardless of the current state — a strict forward move
when the session is at the matching question, but a backward move for a
stale token at a later state; and the restart path replaces the session with
a fresh one at `StateInitial` with empty profile data. -/
theorem C1_forward_or_reset :
    (∀ (ext : Ext) (s : UserSession) (input : String),
      (processInput ext s input).sess.state = s.state ∨
        stateIdx s.state < stateIdx (processInput ext s input).sess.state) ∧
    (∀ (ext : Ext) (s : UserSession) (dat : String) (t : UserState),
      tokenTarget dat = some t →
      (processButtonCallback ext s dat).sess.state = t) ∧
    (∀ (userID now : Int),
      (NewUserSession userID now).state = StateInitial ∧
      (NewUserSession userID now).data = emptyUserData) := by
  refine ⟨?_, pbcTargetState, fun userID now => ⟨rfl, rfl⟩⟩
  intro ext s input
  rcases s with ⟨uid, st, d, ca, mc, lct, lc, lcb, lm⟩
  cases st
  case StateAskAge =>
    rcases hat : atoi input with _ | n <;> simp [processInput, hat, stateIdx]
  case StateAskHeight =>
    rcases hat : atoi input with _ | n <;> simp [processInput, hat, stateIdx]
  case StateAskWeight =>
    rcases hat : atoi input with _ | n <;> simp [processInput, hat, stateIdx]
  case StatePayment =>
    by_cases hp : input = "/pay"
    · rcases hl : ext.payLink with _ | link <;> simp [processInput, hp, hl, stateIdx]
    · simp [processInput, hp, stateIdx]
  all_goals simp [processInput, stateIdx]

/-- Witness for C1 as amended: each part applied at a concrete session,
input, and token. -/
theorem C1_forward_or_reset_witness :
    ((processInput extD sessionAtAskSex ("male")).sess.state = sessionAtAskSex.state ∨
      stateIdx sessionAtAskSex.state <
        stateIdx (processInput extD sessionAtAskSex ("male")).sess.state) ∧
    (tokenTarget ("sex:male") = some StateAskAge ∧
      (processButtonCallback extD sessionAtAskSex ("sex:male")).sess.state
        = StateAskAge) :=
  ⟨C1_forward_or_reset.1 extD sessionAtAskSex ("male"),
    ⟨by decide,
      C1_forward_or_reset.2.1 extD sessionAtAskSex ("sex:male") StateAskAge (by decide)⟩⟩

/-- Claim C6 counterexample: the token "sex:" (a valid field prefix with an
empty suffix) is 4 bytes long, so it passes the malformed guard, and the
translator advances the state of a session at `StateAskSex` to
`StateAskAge` while storing the empty string — refuting the claim that a
token with an empty suffix never advances state. -/
theorem C6_counterexample :
    sessionAtAskSex.state = StateAskSex ∧
    ¬ goLen ("sex:") < 4 ∧
    (processButtonCallback extD sessionAtAskSex ("sex:")).sess.state = StateAskAge ∧
    (processButtonCallback extD sessionAtAskSex ("sex:")).sess.state
      ≠ sessionAtAskSex.state ∧
    (processButtonCallback extD sessionAtAskSex ("sex:")).sess.data.sex = "" ∧
    (processButtonCallback extD sessionAtAskSex ("sex:")).isErr = false := by
  decide

/-- Claim C6 as amended: a token shorter than 4 bytes is rejected as
malformed with an error and no mutation; a token reaching the final branch
of the check chain (unrecognized prefix) is rejected as unknown with an
error and no mutation; a token under a valid field prefix whose value is in
that prefix's table stores exactly the canonical value and sets the state to
the prefix's fixed successor; but a recognized field prefix with a value
absent from its table — including the empty suffix — stores the zero value
"" and still advances the state to the same fixed successor. -/
theorem C6_token_translation :
    (∀ (ext : Ext) (s : UserSession) (dat : String),
      goLen dat < 4 →
      processButtonCallback ext s dat = ⟨s, "Invalid data", [], true⟩) ∧
    (∀ (ext : Ext) (s : UserSession) (dat : String),
      tokenUnknown dat →
      processButtonCallback ext s dat = ⟨s, "Unknown command", [], true⟩) ∧
    (∀ (ext : Ext) (s : UserSession) (v : String),
      (processButtonCallback ext s ("sex:" ++ v)).sess.data.sex
          = (sexTable v).getD "" ∧
      (processButtonCallback ext s ("sex:" ++ v)).sess.state = StateAskAge ∧
      (processButtonCallback ext s ("sex:" ++ v)).isErr = false) ∧
    (∀ (ext : Ext) (s : UserSession) (v : String),
      (processButtonCallback ext s ("dia:" ++ v)).sess.data.diabetes
          = (diaTable v).getD "" ∧
      (processButtonCallback ext s ("dia:" ++ v)).sess.state = StateAskLevel ∧
      (processButtonCallback ext s ("dia:" ++ v)).isErr = false) ∧
    (∀ (ext : Ext) (s : UserSession) (v : String),
      (processButtonCallback ext s ("lvl:" ++ v)).sess.data.level
          = (lvlTable v).getD "" ∧
      (processButtonCallback ext s ("lvl:" ++ v)).sess.state = StateAskGoal ∧
      (processButtonCallback ext s ("lvl:" ++ v)).isErr = false) ∧
    (∀ (ext : Ext) (s : UserSession) (v : String),
      (processButtonCallback ext s ("gol:" ++ v)).sess.data.fitnessGoal
          = (golTable v).getD "" ∧
      (processButtonCallback ext s ("gol:" ++ v)).sess.state = StateAskType ∧
      (processButtonCallback ext s ("gol:" ++ v)).isErr = false) ∧
    (∀ (ext : Ext) (s : UserSession) (v : String),
      (processButtonCallback ext s ("typ:" ++ v)).sess.data.fitnessType
          = (typTable v).getD "" ∧
      (processButtonCallback ext s ("typ:" ++ v)).sess.state = StatePayment ∧
      (processButtonCallback ext s ("typ:" ++ v)).isErr = false) := by
  refine ⟨?_, ?_, ?_, ?_, ?_, ?_, ?_⟩
  · intro ext s dat h
    simp [processButtonCallback, h]
  · intro ext s dat h
    obtain ⟨h1, h2, h3, h4, h5, h6, h7, h8, h9⟩ := h
    simp [processButtonCallback, h1, h2, h3, h4, h5, h6, h7, h8, h9]
  · intro ext s v
    rw [pbc_sex_reduce]
    exact ⟨rfl, rfl, rfl⟩
  · intro ext s v
    rw [pbc_dia_reduce]
    exact ⟨rfl, rfl, rfl⟩
  · intro ext s v
    rw [pbc_lvl_reduce]
    exact ⟨rfl, rfl, rfl⟩
  · intro ext s v
    rw [pbc_gol_reduce]
    exact ⟨rfl, rfl, rfl⟩
  · intro ext s v
    rw [pbc_typ_reduce]
    exact ⟨rfl, rfl, rfl⟩

/-- Witness for C6 as amended: a malformed token, an unknown token, and an
in-table token at concrete inputs. -/
theorem C6_token_translation_witness :
    (goLen ("ab") < 4 ∧
      processButtonCallback extD sessionAtAskSex ("ab")
        = ⟨sessionAtAskSex, "Invalid data", [], true⟩) ∧
    (tokenUnknown ("zzzz") ∧
      processButtonCallback extD sessionAtAskSex ("zzzz")
        = ⟨sessionAtAskSex, "Unknown command", [], true⟩) ∧
    ((processButtonCallback extD sessionAtAskSex ("sex:" ++ "male")).sess.data.sex
        = (sexTable ("male")).getD "" ∧
      (processButtonCallback extD sessionAtAskSex ("sex:" ++ "male")).sess.state
        = StateAskAge ∧
      (processButtonCallback extD sessionAtAskSex ("sex:" ++ "male")).isErr = false) :=
  ⟨⟨by decide, C6_token_translation.1 extD sessionAtAskSex ("ab") (by decide)⟩,
    ⟨by unfold tokenUnknown; decide,
      C6_token_translation.2.1 extD sessionAtAskSex ("zzzz")
        (by unfold tokenUnknown; decide)⟩,
    C6_token_translation.2.2.1 extD sessionAtAskSex ("male")⟩

/-- Claim C2 counterexample: under the interleaving in which both calls run
their `RLock` read section before either runs its `Lock` write section
(schedule read1, read2, write1, write2), two concurrent first-contact
`getSession` calls for the same identity both find no session and both
create one: two creations occur and the two calls return two distinct
session objects (the later write overwrites the earlier in the store) —
refuting the at-most-one-creation claim. -/
theorem C2_counterexample :
    (runRace 7 1 2 [false, true, false, true]).creations = 2 ∧
    (runRace 7 1 2 [false, true, false, true]).t1.pc = 2 ∧
    (runRace 7 1 2 [false, true, false, true]).t2.pc = 2 ∧
    (runRace 7 1 2 [false, true, false, true]).t1.ret ≠ none ∧
    (runRace 7 1 2 [false, true, false, true]).t2.ret ≠ none ∧
    (runRace 7 1 2 [false, true, false, true]).t1.ret
      ≠ (runRace 7 1 2 [false, true, false, true]).t2.ret := by
  decide

/-- Claim C2 as amended: the `getSession` check-then-act race can create two
distinct sessions when the two calls interleave; when one call completes
before the other begins (either order), exactly one session is created and
both calls return the same session. -/
theorem C2_serialized_single_creation :
    ((runRace 7 1 2 [false, false, true]).creations = 1 ∧
      (runRace 7 1 2 [false, false, true]).t1.ret
        = (runRace 7 1 2 [false, false, true]).t2.ret ∧
      (runRace 7 1 2 [false, false, true]).t1.pc = 2 ∧
      (runRace 7 1 2 [false, false, true]).t2.pc = 2) ∧
    ((runRace 7 1 2 [true, true, false]).creations = 1 ∧
      (runRace 7 1 2 [true, true, false]).t1.ret
        = (runRace 7 1 2 [true, true, false]).t2.ret ∧
      (runRace 7 1 2 [true, true, false]).t1.pc = 2 ∧
      (runRace 7 1 2 [true, true, false]).t2.pc = 2) := by
  decide

set_option maxRecDepth 40000 in
/-- Claim C8 counterexample: after the 101 distinct update ids 0..100 have
been processed, the seen set exceeds the 100-entry high-water mark and is
cleared entirely, so replaying update id 0 — which had been recorded and
handled — is handled a second time: the handler log contains id 0 twice,
refuting the claim that a replay of a recorded event id never produces a
second response. -/
theorem C8_counterexample :
    ((runUpdates (List.range 101)).handled.count 0 = 1) ∧
    ((runUpdates (List.range 101)).processed = []) ∧
    ((runUpdates (List.range 101 ++ [0])).handled.count 0 = 2) := by
  decide

/-- Claim C8 as amended: a delivery whose update id is currently in the
process-wide seen set is dropped before any handler runs (the loop state is
unchanged); a delivery with a fresh id is dispatched exactly once and its id
is recorded; but the seen set is cleared entirely once it passes 100
entries, after which a replayed id is handled again. -/
theorem C8_dedup_while_recorded :
    (∀ (st : LoopState) (updateID : Nat),
      updateID ∈ st.processed → stepUpdate st updateID = st) ∧
    (∀ (st : LoopState) (updateID : Nat),
      updateID ∉ st.processed →
      (stepUpdate st updateID).handled = updateID :: st.handled) := by
  constructor
  · intro st updateID h
    unfold stepUpdate
    rw [if_pos h]
  · intro st updateID h
    unfold stepUpdate
    rw [if_neg h]

/-- Witness for C8 as amended: a recorded id is dropped, a fresh id is
handled. -/
theorem C8_dedup_while_recorded_witness :
    ((5 : Nat) ∈ [5] ∧ stepUpdate ⟨[5], [5]⟩ 5 = ⟨[5], [5]⟩) ∧
    ((7 : Nat) ∉ [5] ∧ (stepUpdate ⟨[5], [5]⟩ 7).handled = [7, 5]) :=
  ⟨⟨by decide, C8_dedup_while_recorded.1 ⟨[5], [5]⟩ 5 (by decide)⟩,
    ⟨by decide, C8_dedup_while_recorded.2 ⟨[5], [5]⟩ 7 (by decide)⟩⟩

set_option maxRecDepth 40000 in
/-- Claim C4 counterexample: in the full message path, a non-command input
"hello" delivered to a session at `StatePayment` also produces a
payment-link creation request — the keyboard constructed for the Payment
state itself calls `CreatePayment` — refuting the claim that the literal
input "/pay" is the only input that produces such a side effect. -/
theorem C4_counterexample :
    sessionAtPayment.state = StatePayment ∧
    ("hello" : String) ≠ "/pay" ∧
    Effect.createPay 1 ∈
      (handleMessage extD ⟨[(1, sessionAtPayment)], []⟩ 1
        ⟨"hello", false, "", 100⟩).2 := by
  decide

/-- Claim C4 as amended: within the dialog state machine (`ProcessInput`),
"/pay" is the only input at `StatePayment` that requests a payment link;
every other input leaves the session untouched, emits no effect, and
re-issues the collected-data message instructing the user to pay; in both
cases the state remains `StatePayment`. (The full message path additionally
requests a payment link for every non-command input at `StatePayment`,
because the Payment keyboard itself calls `CreatePayment` — see the
counterexample.) -/
theorem C4_pay_gate :
    (∀ (ext : Ext) (s : UserSession) (input : String),
      s.state = StatePayment → input ≠ "/pay" →
      (processInput ext s input).sess = s ∧
      (processInput ext s input).effs = [] ∧
      (processInput ext s input).resp = payReminder s.data) ∧
    (∀ (ext : Ext) (s : UserSession),
      s.state = StatePayment →
      (processInput ext s ("/pay")).sess = s ∧
      (processInput ext s ("/pay")).effs = [Effect.createPay s.userID]) := by
  constructor
  · intro ext s input hst hne
    rcases s with ⟨uid, st, d, ca, mc, lct, lc, lcb, lm⟩
    simp only at hst
    subst hst
    simp [processInput, hne]
  · intro ext s hst
    rcases s with ⟨uid, st, d, ca, mc, lct, lc, lcb, lm⟩
    simp only at hst
    subst hst
    rcases hl : ext.payLink with _ | link <;> simp [processInput, hl]

/-- Witness for C4 as amended at a concrete session and inputs. -/
theorem C4_pay_gate_witness :
    sessionAtPayment.state = StatePayment ∧
    ("hello" : String) ≠ "/pay" ∧
    (processInput extD sessionAtPayment ("hello")).sess = sessionAtPayment ∧
    (processInput extD sessionAtPayment ("hello")).effs = [] ∧
    (processInput extD sessionAtPayment ("/pay")).effs
      = [Effect.createPay sessionAtPayment.userID] :=
  ⟨by decide, by decide,
    (C4_pay_gate.1 extD sessionAtPayment ("hello") (by decide) (by decide)).1,
    (C4_pay_gate.1 extD sessionAtPayment ("hello") (by decide) (by decide)).2.1,
    (C4_pay_gate.2 extD sessionAtPayment (by decide)).2⟩

/-- Claim C10: the message-count limit is checked before command dispatch
and the counter is reset by nothing but whole-session replacement, so once a
session's counter has reached the limit, every subsequent non-callback
message — including the `/start` restart command — is rejected with the
limit message, the stored session keeps its state and data (only the counter
grows), and the lockout persists; `ProcessInput`, `ProcessButtonCallback`
and `SetPaymentCompleted` never change the counter. -/
theorem C10_limit_lockout :
    (∀ (ext : Ext) (b : BotState) (userID : Int) (ev : MsgEvent)
        (s : UserSession),
      lookupA b.sessions userID = some s → 10 ≤ s.messageCount →
      (handleMessage ext b userID ev).2 = [Effect.send limitText] ∧
      (handleMessage ext b userID ev).1.sessions
        = insertA b.sessions userID { s with messageCount := s.messageCount + 1 } ∧
      (handleMessage ext b userID ev).1.lastStartTime = b.lastStartTime ∧
      10 ≤ ({ s with messageCount := s.messageCount + 1 } : UserSession).messageCount) ∧
    (∀ (ext : Ext) (s : UserSession) (input : String),
      (processInput ext s input).sess.messageCount = s.messageCount) ∧
    (∀ (ext : Ext) (s : UserSession) (dat : String),
      (processButtonCallback ext s dat).sess.messageCount = s.messageCount) ∧
    (∀ (s : UserSession) (pid : String) (now : Int),
      (setPaymentCompleted s pid now).messageCount = s.messageCount) := by
  refine ⟨?_, ?_, ?_, fun s pid now => rfl⟩
  · intro ext b userID ev s hlook hcnt
    have hne : ¬ (s.messageCount + 1 ≤ 10) := by omega
    refine ⟨?_, ?_, ?_, show (10 : Int) ≤ s.messageCount + 1 by omega⟩ <;>
      simp [handleMessage, getSessionSeq, hlook, incrementMessageCount,
        decide_eq_false_iff_not, hne]
  · intro ext s input
    rcases s with ⟨uid, st, d, ca, mc, lct, lc, lcb, lm⟩
    cases st
    case StateAskAge =>
      rcases hat : atoi input with _ | n <;> simp [processInput, hat]
    case StateAskHeight =>
      rcases hat : atoi input with _ | n <;> simp [processInput, hat]
    case StateAskWeight =>
      rcases hat : atoi input with _ | n <;> simp [processInput, hat]
    case StatePayment =>
      by_cases hp : input = "/pay"
      · rcases hl : ext.payLink with _ | link <;> simp [processInput, hp, hl]
      · simp [processInput, hp]
    all_goals simp [processInput]
  · intro ext s dat
    unfold processButtonCallback
    split_ifs <;>
      first
        | rfl
        | (rcases hl : ext.payLink with _ | link <;> simp [hl])

/-- Witness for C10 at a concrete over-limit session receiving `/start`. -/
theorem C10_limit_lockout_witness :
    lookupA botOverLimit.sessions 1 = some sessionOverLimit ∧
    10 ≤ sessionOverLimit.messageCount ∧
    (handleMessage extD botOverLimit 1 startEvent).2 = [Effect.send limitText] :=
  ⟨by decide, by decide,
    (C10_limit_lockout.1 extD botOverLimit 1 startEvent sessionOverLimit
      (by decide) (by decide)).1⟩

end TraineBot
